import Mathlib

/-!
Shallow embedding of the tabular data preparation engine of the DataInspect
repository: the filter-predicate engine (`ChartBase.apply_filters` and the
per-type filter helpers in `src/visualization/chart_base.py`), the column
transformation pipeline (`DataTransformation` / `DataFrameTransformer` in
`src/data/transformations/data_transformation.py`), and the column profiler
and dataset model (`Column.from_series` / `Dataset` in `src/data/models.py`).

Modelling conventions:
* pandas cells are `CellVal`: `null` stands for NaN/None/NaT, `num` for the
  numeric values (floats embedded as rationals), `str` for strings (lists of
  characters).  A DataFrame is a row count together with named columns.
* filter helpers return the list of kept row indices (positions `0..n-1`,
  the positional index the engine works with after its defensive re-indexing);
  `return data` paths (the source's no-op fallbacks) return all indices.
* Python exceptions are embedded with `Except Unit`; `float(...)` / `int(...)`
  conversions that may raise are total functions into `Except Unit (Option _)`.
-/

namespace DataInspect

/-- One cell of a table column: NaN/missing, a numeric value (floats modeled
as rationals), or a string value. -/
inductive CellVal where
  | null : CellVal
  | num : ℚ → CellVal
  | str : List Char → CellVal
  deriving DecidableEq, Repr

/-- A Python value handed to a filter clause as operand (`value` / `value2`):
`None`, a number, or a string. -/
inductive PyVal where
  | pnone : PyVal
  | pnum : ℚ → PyVal
  | pstr : List Char → PyVal
  deriving DecidableEq, Repr

/-- Python truthiness of an operand (`if value:`): `None`, `0` and the empty
string are falsy. -/
def pyTruthy : PyVal → Bool
  | .pnone => false
  | .pnum q => q != 0
  | .pstr s => s != []

def isStrCell : CellVal → Bool
  | .str _ => true
  | _ => false

def isNullCell : CellVal → Bool
  | .null => true
  | _ => false

def isNumCell : CellVal → Bool
  | .num _ => true
  | _ => false

/-- Decimal digit value of a character, if it is a digit. -/
def digitVal (c : Char) : Option ℕ :=
  if c.isDigit then some (c.toNat - 48) else none

/-- Accumulating parse of a nonempty digit string. -/
def parseDigitsAux (acc : ℕ) : List Char → Option ℕ
  | [] => some acc
  | c :: rest =>
    match digitVal c with
    | some d => parseDigitsAux (acc * 10 + d) rest
    | none => none

/-- Parse a nonempty run of decimal digits; `none` when empty or non-digit. -/
def parseNatDigits (l : List Char) : Option ℕ :=
  if l = [] then none else parseDigitsAux 0 l

/-- Split a character list at the first dot, mirroring the shape accepted by
Python's `float(...)` (at most one dot; a second dot makes parsing fail in
`parseNatDigits` below because a dot is not a digit). -/
def breakAtDot : List Char → List Char × Option (List Char)
  | [] => ([], none)
  | c :: rest =>
    if c = '.' then ([], some rest)
    else
      let p := breakAtDot rest
      (c :: p.1, p.2)

/-- Parse an unsigned decimal numeral with an optional fractional part, as
accepted by Python's `float(...)` (`"1"`, `"1.5"`, `"1."`, `".5"`; not `"."`,
not `"abc"`).  Exponents and special spellings such as `"inf"` are not
modeled; no claim depends on them. -/
def parseUnsignedFloat (l : List Char) : Option ℚ :=
  let p := breakAtDot l
  match p.2 with
  | none => (parseNatDigits p.1).map (fun n => (n : ℚ))
  | some f =>
    if p.1 = [] ∧ f = [] then none
    else
      let ipv : Option ℕ := if p.1 = [] then some 0 else parseNatDigits p.1
      let fpv : Option ℕ := if f = [] then some 0 else parseNatDigits f
      match ipv, fpv with
      | some i, some fr => some ((i : ℚ) + (fr : ℚ) / (10 : ℚ) ^ f.length)
      | _, _ => none

/-- Python `float(str)` on a possibly signed numeral. -/
def parseFloat : List Char → Option ℚ
  | '-' :: rest => (parseUnsignedFloat rest).map Neg.neg
  | '+' :: rest => parseUnsignedFloat rest
  | l => parseUnsignedFloat l

/-- Python `int(str)`: a possibly signed run of digits (`int("1.5")` raises,
so no dot is accepted). -/
def parseIntChars : List Char → Option ℤ
  | '-' :: rest => (parseNatDigits rest).map (fun n => -(n : ℤ))
  | '+' :: rest => (parseNatDigits rest).map (fun n => (n : ℤ))
  | l => (parseNatDigits l).map (fun n => (n : ℤ))

/-- Truncation toward zero, Python's `int(float)`. -/
def truncQ (q : ℚ) : ℤ :=
  (if q.num < 0 then -1 else 1) * ((q.num.natAbs / q.den : ℕ) : ℤ)

/-- Floor of a rational as an integer (`Int.fdiv` is floor division and a
rational's denominator is positive). -/
def floorQ (q : ℚ) : ℤ := Int.fdiv q.num (q.den : ℤ)

/-- Python's `%` on floats: `a % b = a - b * floor (a / b)` (the remainder
takes the divisor's sign, matching floor division). -/
def pmod (a b : ℚ) : ℚ := a - b * (floorQ (a / b) : ℚ)

/-- Python list slice `l[:n]` (a negative bound counts from the end, the
result is clamped to the list). -/
def pyTake {α : Type} (l : List α) (n : ℤ) : List α :=
  if 0 ≤ n then l.take n.toNat else l.take ((l.length : ℤ) + n).toNat

/-- Python list slice `l[m:]` (a negative bound counts from the end, the
result is clamped to the list). -/
def pyDrop {α : Type} (l : List α) (m : ℤ) : List α :=
  if 0 ≤ m then l.drop m.toNat else l.drop ((l.length : ℤ) + m).toNat

/-- `p` is an initial segment of `t` (exact, case-sensitive comparison);
the test behind pandas `str.startswith`. -/
def chkPre : List Char → List Char → Bool
  | [], _ => true
  | _ :: _, [] => false
  | a :: as, b :: bs => a == b && chkPre as bs

/-- `p` occurs contiguously inside `t`; the test behind pandas
`str.contains` for a plain (non-regex-special) pattern. -/
def chkSub (p : List Char) : List Char → Bool
  | [] => chkPre p []
  | b :: bs => chkPre p (b :: bs) || chkSub p bs

/-- `p` is a final segment of `t`; the test behind pandas `str.endswith`. -/
def chkSuf (p t : List Char) : Bool := chkPre p.reverse t.reverse

/-- Lowercase a string, `str.lower()` (ASCII letters, which is what
`Char.toLower` maps; the claims only involve ASCII data). -/
def lowerStr (l : List Char) : List Char := l.map Char.toLower

/-- Python `str.strip()` restricted to spaces, as used on the items of a
comma-separated `specific_values` operand. -/
def stripSpaces (l : List Char) : List Char :=
  ((l.dropWhile (fun c => c == ' ')).reverse.dropWhile (fun c => c == ' ')).reverse

/-- Python `value.split(',')`. -/
def splitCommaAux (acc : List Char) : List Char → List (List Char)
  | [] => [acc.reverse]
  | c :: rest =>
    if c = ',' then acc.reverse :: splitCommaAux [] rest
    else splitCommaAux (c :: acc) rest

/-- String rendering of a cell, pandas `astype(str)`: NaN renders as the
string `"nan"`.  The decimal rendering of a non-integral numeric cell is
abstracted (no claim applies a text filter to a numeric column). -/
def cellToStr : CellVal → List Char
  | .str s => s
  | .null => ['n', 'a', 'n']
  | .num q =>
    (if q.num < 0 then ['-'] else []) ++ (Nat.toDigits 10 q.num.natAbs) ++
      (if q.den = 1 then ['.', '0'] else '/' :: Nat.toDigits 10 q.den)

/-- A materialized table: a row count and named columns.  Well-formed frames
have pairwise distinct column names and every column of length `nrows`
(pandas guarantees both); rows are identified by their position `0..n-1`,
the consistent position space the engine re-indexes to. -/
structure DF where
  nrows : ℕ
  cols : List (String × List CellVal)
  deriving DecidableEq, Repr

def DF.colNames (df : DF) : List String := df.cols.map Prod.fst

/-- `data[column]` for a present column (`[]` when absent; callers of the
filter helpers have already checked membership, mirroring the guard in
`apply_filters`). -/
def DF.getCol (df : DF) (c : String) : List CellVal :=
  ((df.cols.lookup c).getD [])

/-- The cell of column `c` at row position `i`. -/
def DF.cell (df : DF) (c : String) (i : ℕ) : CellVal :=
  (df.getCol c).getD i .null

/-- pandas `df.empty`: true when either axis has length zero. -/
def DF.isEmpty (df : DF) : Bool := df.nrows == 0 || df.cols.isEmpty

/-- All row positions of the frame; the embedding of every `return data`
no-op path of the filter helpers. -/
def allIdx (df : DF) : List ℕ := List.range df.nrows

/-- Whether the column holds any string cell.  On such (object-dtype) columns
the ordered numeric comparisons and `%` raise `TypeError` in pandas, which
the filter helpers catch by returning the data unchanged. -/
def hasStrCol (df : DF) (c : String) : Bool := (df.getCol c).any isStrCell

/-- Case-insensitive containment test of the `contains` operator:
`data[column].astype(str).str.contains(value, na=False, case=False)`
(the pattern is used literally; regex metacharacters are not modeled). -/
def containsMatch (v : List Char) (c : CellVal) : Bool :=
  chkSub (lowerStr v) (lowerStr (cellToStr c))

/-- Case-insensitive equality test of the `equals` operator:
`data[column].astype(str).str.lower() == value.lower()`. -/
def equalsMatchT (v : List Char) (c : CellVal) : Bool :=
  lowerStr (cellToStr c) == lowerStr v

/-- Case-sensitive test of the `starts_with` operator:
`data[column].astype(str).str.startswith(value, na=False)`. -/
def startsWithMatch (v : List Char) (c : CellVal) : Bool :=
  chkPre v (cellToStr c)

/-- Case-sensitive test of the `ends_with` operator:
`data[column].astype(str).str.endswith(value, na=False)`. -/
def endsWithMatch (v : List Char) (c : CellVal) : Bool :=
  chkSuf v (cellToStr c)

/-- `ChartBase._apply_text_filter`, as the list of kept row positions.
A falsy `value` returns the data unchanged; a non-string `value` makes the
string methods raise, which the broad `except` clause turns into the same
no-op; an unknown operator falls off the `elif` chain and returns the data. -/
def applyTextFilter (df : DF) (column : String) (op : String) (value : PyVal) :
    List ℕ :=
  match value with
  | .pstr s =>
    if s = [] then allIdx df
    else if op = "contains" then
      (allIdx df).filter (fun i => containsMatch s (df.cell column i))
    else if op = "equals" then
      (allIdx df).filter (fun i => equalsMatchT s (df.cell column i))
    else if op = "starts_with" then
      (allIdx df).filter (fun i => startsWithMatch s (df.cell column i))
    else if op = "ends_with" then
      (allIdx df).filter (fun i => endsWithMatch s (df.cell column i))
    else if op = "specific_values" then
      let vals := (splitCommaAux [] s).map stripSpaces
      (allIdx df).filter (fun i => vals.contains (cellToStr (df.cell column i)))
    else allIdx df
  | _ => allIdx df

/-- `float(value) if value is not None else None`: `None` stays `None`,
numbers pass through, strings must parse or the `ValueError` propagates to
the filter's `except` clause (`Except.error`). -/
def tryFloat : PyVal → Except Unit (Option ℚ)
  | .pnone => .ok none
  | .pnum q => .ok (some q)
  | .pstr s =>
    match parseFloat s with
    | some q => .ok (some q)
    | none => .error ()

/-- `int(value) if value is not None else None` (truncation for floats,
digit parsing for strings). -/
def tryInt : PyVal → Except Unit (Option ℤ)
  | .pnone => .ok none
  | .pnum q => .ok (some (truncQ q))
  | .pstr s =>
    match parseIntChars s with
    | some n => .ok (some n)
    | none => .error ()

/-- `pd.to_datetime(value) if value else None`: falsy operands stay `None`;
timestamps are carried as numbers and string parsing is abstracted by the
numeric parser (no claim exercises date parsing). -/
def tryDate (v : PyVal) : Except Unit (Option ℚ) :=
  if pyTruthy v then
    match v with
    | .pnum q => .ok (some q)
    | .pstr s =>
      match parseFloat s with
      | some q => .ok (some q)
      | none => .error ()
    | .pnone => .ok none
  else .ok none

/-- `data[column] == x` for a numeric scalar: elementwise, NaN and string
cells compare unequal (pandas `==` never raises). -/
def cellEqNum (c : CellVal) (x : ℚ) : Bool :=
  match c with
  | .num y => y == x
  | _ => false

/-- The remainder-zero test of `divisible_by` on one cell: NaN gives
`NaN % x = NaN ≠ 0`. -/
def cellDivisible (c : CellVal) (x : ℚ) : Bool :=
  match c with
  | .num y => pmod y x == 0
  | _ => false

def cellGtNum (c : CellVal) (x : ℚ) : Bool :=
  match c with
  | .num y => decide (x < y)
  | _ => false

def cellLtNum (c : CellVal) (x : ℚ) : Bool :=
  match c with
  | .num y => decide (y < x)
  | _ => false

def cellBetweenNum (c : CellVal) (lo hi : ℚ) : Bool :=
  match c with
  | .num y => decide (lo ≤ y) && decide (y ≤ hi)
  | _ => false

/-- `ChartBase._apply_numeric_filter`, as the list of kept row positions.
Both operands are converted up front, so a failing `float(...)` aborts every
operator into the `except (ValueError, TypeError)` no-op; the ordered
comparisons and `%` also take that no-op path when the column holds string
cells (object dtype raising `TypeError`).  `every_nth` with a converted
step of `0` hits `range(0, len, 0)`, a `ValueError`, hence the same no-op. -/
def applyNumericFilter (df : DF) (column : String) (op : String)
    (value value2 : PyVal) : List ℕ :=
  match tryFloat value, tryFloat value2 with
  | .error _, _ => allIdx df
  | _, .error _ => allIdx df
  | .ok nv, .ok nv2 =>
    if op = "equals" ∧ nv.isSome then
      (allIdx df).filter (fun i => cellEqNum (df.cell column i) (nv.getD 0))
    else if op = "greater_than" ∧ nv.isSome then
      if hasStrCol df column then allIdx df
      else (allIdx df).filter (fun i => cellGtNum (df.cell column i) (nv.getD 0))
    else if op = "less_than" ∧ nv.isSome then
      if hasStrCol df column then allIdx df
      else (allIdx df).filter (fun i => cellLtNum (df.cell column i) (nv.getD 0))
    else if op = "between" ∧ nv.isSome ∧ nv2.isSome then
      if hasStrCol df column then allIdx df
      else (allIdx df).filter
        (fun i => cellBetweenNum (df.cell column i) (nv.getD 0) (nv2.getD 0))
    else if op = "divisible_by" ∧ nv.isSome ∧ nv.getD 0 ≠ 0 then
      if hasStrCol df column then allIdx df
      else (allIdx df).filter (fun i => cellDivisible (df.cell column i) (nv.getD 0))
    else if op = "every_nth" ∧ nv.isSome ∧ 0 < nv.getD 0 then
      let n := truncQ (nv.getD 0)
      if n = 0 then allIdx df
      else (List.range df.nrows).filter (fun i => i % n.toNat == 0)
    else if op = "first_n" ∧ nv.isSome ∧ 0 < nv.getD 0 then
      (List.range df.nrows).take (truncQ (nv.getD 0)).toNat
    else if op = "last_n" ∧ nv.isSome ∧ 0 < nv.getD 0 then
      (List.range df.nrows).drop (df.nrows - (truncQ (nv.getD 0)).toNat)
    else allIdx df

/-- The column's sorted distinct numeric values, `sorted(data[column].unique())`
on a fully numeric column (NaN entries are left out; the year filter theorems
assume a column without nulls, where this agrees with the source). -/
def sortedDistinct (cells : List CellVal) : List ℚ :=
  List.insertionSort (fun a b => a ≤ b)
    ((cells.filterMap (fun c =>
      match c with
      | .num q => some q
      | _ => none)).dedup)

/-- `data[column].isin(values)` for a list of numbers. -/
def cellInQ (c : CellVal) (sel : List ℚ) : Bool :=
  match c with
  | .num q => sel.contains q
  | _ => false

/-- `ChartBase._apply_year_filter`, as the list of kept row positions.
The ordered comparisons and the `sorted(...)` of `first_n`/`last_n` raise
`TypeError` on a column holding string cells, caught into the no-op; note
that `first_n`/`last_n` only require `year_value is not None` (no positivity
guard), and slice the sorted distinct values with Python slices. -/
def applyYearFilter (df : DF) (column : String) (op : String)
    (value value2 : PyVal) : List ℕ :=
  match tryInt value, tryInt value2 with
  | .error _, _ => allIdx df
  | _, .error _ => allIdx df
  | .ok yv, .ok yv2 =>
    if op = "equals" ∧ yv.isSome then
      (allIdx df).filter (fun i => cellEqNum (df.cell column i) ((yv.getD 0 : ℤ) : ℚ))
    else if op = "greater_than" ∧ yv.isSome then
      if hasStrCol df column then allIdx df
      else (allIdx df).filter (fun i => cellGtNum (df.cell column i) ((yv.getD 0 : ℤ) : ℚ))
    else if op = "less_than" ∧ yv.isSome then
      if hasStrCol df column then allIdx df
      else (allIdx df).filter (fun i => cellLtNum (df.cell column i) ((yv.getD 0 : ℤ) : ℚ))
    else if op = "between" ∧ yv.isSome ∧ yv2.isSome then
      if hasStrCol df column then allIdx df
      else (allIdx df).filter
        (fun i => cellBetweenNum (df.cell column i) ((yv.getD 0 : ℤ) : ℚ) ((yv2.getD 0 : ℤ) : ℚ))
    else if op = "first_n" ∧ yv.isSome then
      if hasStrCol df column then allIdx df
      else
        let ys := sortedDistinct (df.getCol column)
        if ys ≠ [] then
          let sel := pyTake ys (yv.getD 0)
          (allIdx df).filter (fun i => cellInQ (df.cell column i) sel)
        else allIdx df
    else if op = "last_n" ∧ yv.isSome then
      if hasStrCol df column then allIdx df
      else
        let ys := sortedDistinct (df.getCol column)
        if ys ≠ [] then
          let sel := pyDrop ys (-(yv.getD 0))
          (allIdx df).filter (fun i => cellInQ (df.cell column i) sel)
        else allIdx df
    else allIdx df

/-- `ChartBase._apply_date_filter`, as the list of kept row positions;
datetimes are carried as numbers (their timestamp), comparisons on a column
holding string cells raise and are caught into the no-op. -/
def applyDateFilter (df : DF) (column : String) (op : String)
    (value value2 : PyVal) : List ℕ :=
  match tryDate value, tryDate value2 with
  | .error _, _ => allIdx df
  | _, .error _ => allIdx df
  | .ok dv, .ok dv2 =>
    if op = "equals" ∧ dv.isSome then
      (allIdx df).filter (fun i => cellEqNum (df.cell column i) (dv.getD 0))
    else if op = "after" ∧ dv.isSome then
      if hasStrCol df column then allIdx df
      else (allIdx df).filter (fun i => cellGtNum (df.cell column i) (dv.getD 0))
    else if op = "before" ∧ dv.isSome then
      if hasStrCol df column then allIdx df
      else (allIdx df).filter (fun i => cellLtNum (df.cell column i) (dv.getD 0))
    else if op = "between" ∧ dv.isSome ∧ dv2.isSome then
      if hasStrCol df column then allIdx df
      else (allIdx df).filter
        (fun i => cellBetweenNum (df.cell column i) (dv.getD 0) (dv2.getD 0))
    else allIdx df

/-- One filter clause of the chart configuration: the keys the engine reads
from each `filter_config` dictionary, with the source's defaults (`''` for
missing column/type/operator, `None` for missing operands, `'and'` for a
missing logic marker). -/
structure FilterClause where
  column : String
  ftype : String
  op : String
  value : PyVal := .pnone
  value2 : PyVal := .pnone
  logic : String := "and"
  deriving DecidableEq, Repr

/-- A per-clause boolean row mask over the positions `0..n-1`. -/
abbrev Mask := List Bool

/-- The mask of a clause from the positions its filter kept:
`filtered_data.index.isin(temp_filtered.index)` (the all-`False` branch for
an empty result coincides with `isin` of an empty index). -/
def maskOf (n : ℕ) (kept : List ℕ) : Mask :=
  (List.range n).map (fun i => kept.contains i)

def maskAnd (a b : Mask) : Mask := List.zipWith and a b

def maskOr (a b : Mask) : Mask := List.zipWith or a b

/-- Keep the entries of `l` at the `true` positions of the mask,
`data[mask]`. -/
def filterByMask {α : Type} (l : List α) (m : Mask) : List α :=
  ((l.zip m).filter (fun p => p.2)).map Prod.fst

/-- `filtered_data[final_mask]`: the sub-frame of the rows selected by a
boolean mask. -/
def DF.selectRows (df : DF) (m : Mask) : DF :=
  ⟨m.count true, df.cols.map (fun p => (p.1, filterByMask p.2 m))⟩

/-- The evaluation of one clause inside the loop of
`ChartBase.apply_filters`: `none` when the clause is skipped (`continue`) —
empty or absent column, or an unknown filter type — otherwise the kept row
positions of the clause's filter, computed against the full frame (the loop
never narrows `filtered_data` before the masks are combined). -/
def clauseKept (df : DF) (c : FilterClause) : Option (List ℕ) :=
  if c.column = "" ∨ df.colNames.contains c.column = false then none
  else if c.ftype = "text" then some (applyTextFilter df c.column c.op c.value)
  else if c.ftype = "numeric" then
    some (applyNumericFilter df c.column c.op c.value c.value2)
  else if c.ftype = "date" then
    some (applyDateFilter df c.column c.op c.value c.value2)
  else if c.ftype = "year" then
    some (applyYearFilter df c.column c.op c.value c.value2)
  else none

/-- `ChartBase.apply_filters`: every clause's mask is computed independently
against the original frame and paired with the clause's own logic marker;
the masks are then combined strictly left to right (the first collected mask
is the seed, its logic ignored; `and` intersects, anything else unions), and
the combined mask selects rows from the original frame.  No collected mask
(empty clause list, or every clause skipped) returns the frame unchanged. -/
def applyFilters (df : DF) (clauses : List FilterClause) : DF :=
  let masks := clauses.filterMap
    (fun c => (clauseKept df c).map (fun k => (maskOf df.nrows k, c.logic)))
  match masks with
  | [] => df
  | m :: rest =>
    let fm := rest.foldl
      (fun acc p => if p.2 = "and" then maskAnd acc p.1 else maskOr acc p.1) m.1
    df.selectRows fm

/-- A pandas Series as handed to a transformation function: index-labeled
cells (the label is the row position in the owning frame). -/
abbrev Series := List (ℕ × CellVal)

/-- A catalog transformation function.  Operations that can raise internally
(`TEXT_REPLACE` with a bad pattern, a failing conversion, ...) are embedded
as `Except.error`, which `DataTransformation.apply` catches. -/
abbrev TransFn := Series → Except Unit Series

/-- The operation identifiers of `TransformationOperation`. -/
inductive TransformationOperation where
  | REMOVE_MISSING
  | REPLACE_MEAN
  | REPLACE_MEDIAN
  | REPLACE_MODE
  | REPLACE_CUSTOM
  | CONVERT_TO_NUMERIC
  | CONVERT_TO_TEXT
  | CONVERT_TO_DATE
  | CONVERT_TO_CATEGORICAL
  | TEXT_LOWERCASE
  | TEXT_UPPERCASE
  | TEXT_TRIM
  | TEXT_REPLACE
  | NUMERIC_ROUND
  | NUMERIC_NORMALIZE
  | NUMERIC_STANDARDIZE
  | NUMERIC_LIMIT_RANGE
  | OUTLIER_REMOVE
  | OUTLIER_WINSORIZE
  deriving DecidableEq, Repr

/-- `series.dropna()`: the entries whose value is not missing, keeping their
index labels. -/
def removeMissingFn : TransFn :=
  fun s => .ok (s.filter (fun p => !(isNullCell p.2)))

/-- `DataTransformation._get_transformation_function`.  Only the operation
the claims exercise (`REMOVE_MISSING`) is embedded concretely; every other
catalog entry is abstracted by the factory's default identity branch — the
claims about `apply`/`apply_all` are either specific to `REMOVE_MISSING` or
generic in the bound transformation function. -/
def getTransformationFunction : TransformationOperation → TransFn
  | .REMOVE_MISSING => removeMissingFn
  | _ => fun s => .ok s

/-- A `DataTransformation` after `__init__`: the target column together with
the bound transformation function `_transformation_function`. -/
structure DataTransformation where
  column : String
  tfn : TransFn

/-- `DataTransformation(column, operation)`. -/
def mkTransformation (column : String) (op : TransformationOperation) :
    DataTransformation :=
  ⟨column, getTransformationFunction op⟩

/-- `result_df[self.column].copy()`: the target column as an index-labeled
Series over the frame's positions. -/
def seriesOf (df : DF) (c : String) : Series :=
  (List.range df.nrows).map (fun i => (i, df.cell c i))

/-- Replace the cells of column `c` (other columns untouched, the row count
unchanged). -/
def DF.setCol (df : DF) (c : String) (l : List CellVal) : DF :=
  ⟨df.nrows, df.cols.map (fun p => if p.1 = c then (p.1, l) else p)⟩

/-- `result_df[self.column] = transformed_series`: pandas aligns the assigned
Series on the frame's index — a row label absent from the Series becomes
NaN. -/
def alignToIndex (n : ℕ) (s : Series) : List CellVal :=
  (List.range n).map (fun i => (s.lookup i).getD .null)

/-- `DataTransformation.apply`: a copy of the frame; when the target column
is present the bound function runs on it and the result is assigned back
(index-aligned); an internal exception is caught (a diagnostic is printed)
and the copy — with the original column values — is returned. -/
def DataTransformation.apply (t : DataTransformation) (df : DF) : DF :=
  if df.colNames.contains t.column then
    match t.tfn (seriesOf df t.column) with
    | .ok out => df.setCol t.column (alignToIndex df.nrows out)
    | .error _ => df
  else df

/-- `DataFrameTransformer`: the ordered list of transformation steps. -/
structure DataFrameTransformer where
  transformations : List DataTransformation

/-- `DataFrameTransformer.apply_all`: fold `apply` over the steps in
insertion order, starting from a copy of the input. -/
def DataFrameTransformer.applyAll (tr : DataFrameTransformer) (df : DF) : DF :=
  tr.transformations.foldl (fun d t => t.apply d) df

/-- `series.count()`: number of non-null cells. -/
def countStat (s : List CellVal) : ℕ :=
  (s.filter (fun c => !(isNullCell c))).length

/-- `series.isna().sum()`: number of null cells. -/
def nullCountStat (s : List CellVal) : ℕ :=
  (s.filter isNullCell).length

/-- `series.nunique()`: number of distinct non-null cells. -/
def uniqueCountStat (s : List CellVal) : ℕ :=
  ((s.filter (fun c => !(isNullCell c))).dedup).length

/-- The non-null numeric values of a column (for a numeric-dtype column this
is exactly the non-null cells). -/
def nonNullNums (s : List CellVal) : List ℚ :=
  s.filterMap (fun c =>
    match c with
    | .num q => some q
    | _ => none)

/-- `series.min()` with NaN skipping: NaN (`none`) exactly when no non-null
value exists. -/
def minStat (s : List CellVal) : Option ℚ :=
  match nonNullNums s with
  | [] => none
  | x :: xs => some (xs.foldl min x)

/-- `series.max()` with NaN skipping. -/
def maxStat (s : List CellVal) : Option ℚ :=
  match nonNullNums s with
  | [] => none
  | x :: xs => some (xs.foldl max x)

/-- `series.mean()` over the non-null values; NaN (`none`) when there are
none. -/
def meanStat (s : List CellVal) : Option ℚ :=
  match nonNullNums s with
  | [] => none
  | l => some (l.sum / (l.length : ℚ))

/-- `series.median()` over the non-null values (midpoint of the two middle
values for an even count); NaN (`none`) when there are none. -/
def medianStat (s : List CellVal) : Option ℚ :=
  let l := List.insertionSort (fun a b => a ≤ b) (nonNullNums s)
  if l.length = 0 then none
  else if l.length % 2 = 1 then some (l.getD (l.length / 2) 0)
  else some ((l.getD (l.length / 2 - 1) 0 + l.getD (l.length / 2) 0) / 2)

/-- `series.std()` (sample standard deviation, `ddof=1`): NaN (`none`)
exactly when fewer than two non-null values exist.  The numeric payload
carried here is the sample variance — `std` is its square root, and since
the square root maps NaN to NaN and finite non-negative values to finite
values, the null-ness (which is all the profiler's NaN-to-None
normalisation and the claims inspect) is exactly that of the variance;
carrying the variance keeps the development inside `ℚ`. -/
def stdStat (s : List CellVal) : Option ℚ :=
  let l := nonNullNums s
  if l.length ≤ 1 then none
  else
    let m := l.sum / (l.length : ℚ)
    some ((l.map (fun x => (x - m) ^ 2)).sum / ((l.length : ℚ) - 1))

/-- A column profile, `Column` of `src/data/models.py`.  `stats` is the
Python dict embedded as an association list — a key present with value
`None` (`some none` under lookup) is distinct from an absent key. -/
structure Column where
  name : String
  data_type : String
  original_type : String
  stats : List (String × Option ℚ)
  metadata : List (String × String)
  deriving DecidableEq, Repr

/-- Numeric-dtype test of the embedded cells: a column whose cells are all
numbers or NaN (an all-null column reads back as `float64`).  The
`datetime64`/categorical dtypes of the source's inference chain are not
representable in `CellVal` and are not exercised by any claim; everything
non-numeric profiles as `text`. -/
def isNumericCol (s : List CellVal) : Bool :=
  s.all (fun c => !(isStrCell c))

/-- `Column.from_series`: type inference, the three counting statistics, and
— for numeric columns — the five numeric statistics, each `None` instead of
NaN (for a non-empty column with a non-null value the guard makes
min/max/mean/median finite, so the source's `None if isna(x) else x`
normalisation only ever fires on `std`; for an empty or all-null column the
`else` branch sets all five to `None` directly). -/
def Column.from_series (name : String) (s : List CellVal) : Column :=
  let dt := if isNumericCol s then "numeric" else "text"
  let base : List (String × Option ℚ) :=
    [("count", some ((countStat s : ℕ) : ℚ)),
     ("null_count", some ((nullCountStat s : ℕ) : ℚ)),
     ("unique_count", some ((uniqueCountStat s : ℕ) : ℚ))]
  let stats :=
    if dt = "numeric" then
      if s ≠ [] ∧ s.any (fun c => !(isNullCell c)) then
        base ++ [("min", minStat s), ("max", maxStat s), ("mean", meanStat s),
                 ("median", medianStat s), ("std", stdStat s)]
      else
        base ++ [("min", none), ("max", none), ("mean", none),
                 ("median", none), ("std", none)]
    else base
  { name := name
    data_type := dt
    original_type := if isNumericCol s then "float64" else "object"
    stats := stats
    metadata := [] }

/-- `Dataset` after construction: the frame, free-form metadata, and the
column profiles. -/
structure Dataset where
  data : DF
  metadata : List (String × String)
  columns : List Column
  deriving Repr

/-- `Dataset._initialize_columns`: one freshly derived profile per table
column, in table column order.  (The source skips a column whose lookup does
not return a Series, which only happens for duplicate column names; the data
model requires names unique within a table.) -/
def initializeColumns (df : DF) : List Column :=
  df.cols.map (fun p => Column.from_series p.1 p.2)

/-- `Dataset.__post_init__`: profiles are derived only when no columns list
was supplied and the frame is non-empty (`not self.columns and not
self.data.empty`). -/
def mkDataset (data : DF) (metadata : List (String × String))
    (columns : List Column) : Dataset :=
  if columns.isEmpty ∧ data.isEmpty = false then
    ⟨data, metadata, initializeColumns data⟩
  else ⟨data, metadata, columns⟩

/-! Concrete frames and clauses used to instantiate the theorems. -/

/-- A four-row numeric frame for the combination-fold example. -/
def exDF : DF := ⟨4, [("v", [.num 1, .num 2, .num 3, .num 4])]⟩

/-- Clause A of the fold example: `v == 1` (its logic marker is ignored as
the seed clause). -/
def exA : FilterClause := ⟨"v", "numeric", "equals", .pnum 1, .pnone, "and"⟩

/-- Clause B of the fold example: `v == 2`, combined with OR. -/
def exB : FilterClause := ⟨"v", "numeric", "equals", .pnum 2, .pnone, "or"⟩

/-- Clause C of the fold example: `v > 1`, combined with AND. -/
def exC : FilterClause := ⟨"v", "numeric", "greater_than", .pnum 1, .pnone, "and"⟩

/-- A two-row numeric frame. -/
def df3 : DF := ⟨2, [("v", [.num 1, .num 2])]⟩

/-- A clause that evaluates: `v == 1`. -/
def c3A : FilterClause := ⟨"v", "numeric", "equals", .pnum 1, .pnone, "and"⟩

/-- A numeric clause whose operand `"abc"` fails `float(...)` conversion,
combined with OR. -/
def c3B : FilterClause :=
  ⟨"v", "numeric", "equals", .pstr ['a', 'b', 'c'], .pnone, "or"⟩

/-- A clause with an empty column reference (skipped by the engine). -/
def cSkip : FilterClause := ⟨"", "numeric", "equals", .pnum 1, .pnone, "and"⟩

/-- A one-row frame whose single value 3 is not a multiple of anything
interesting. -/
def df7 : DF := ⟨1, [("v", [.num 3])]⟩

/-- A three-row numeric frame with values 3, 4, 6. -/
def df7b : DF := ⟨3, [("v", [.num 3, .num 4, .num 6])]⟩

/-- A two-row numeric frame for the subsampling counterexample. -/
def df8 : DF := ⟨2, [("v", [.num 1, .num 2])]⟩

/-- A five-row year column with distinct sorted values 2001 < 2002 < 2003 <
2005, out of row order. -/
def dfy : DF :=
  ⟨5, [("y", [.num 2003, .num 2001, .num 2002, .num 2001, .num 2005])]⟩

/-- A 25-row frame for the `every_nth` example. -/
def df25 : DF := ⟨25, [("v", (List.range 25).map (fun i => .num i))]⟩

/-- A one-row text frame holding the string `"Abc"`. -/
def df10 : DF := ⟨1, [("t", [.str ['A', 'b', 'c']])]⟩

/-- A three-row frame with a numeric column containing a null. -/
def dft : DF :=
  ⟨3, [("numeric", [.num 1, .null, .num 4]),
       ("o", [.str ['a'], .str ['b'], .null])]⟩

/-- A transformation bound to an always-raising function (such as
`TEXT_REPLACE` with an invalid regex pattern). -/
def tBad : DataTransformation := ⟨"numeric", fun _ => .error ()⟩

/-- A frame with one column and zero rows: `data.empty` is true even though
the table has a column. -/
def dfE : DF := ⟨0, [("a", [])]⟩

/-! ### Helper lemmas -/

theorem maskOf_range (n : ℕ) : maskOf n (List.range n) = List.replicate n true := by
  unfold maskOf
  have h : ∀ b ∈ (List.range n).map (fun i => (List.range n).contains i), b = true := by
    intro b hb
    rcases List.mem_map.1 hb with ⟨i, hi, rfl⟩
    simpa using hi
  calc (List.range n).map (fun i => (List.range n).contains i)
      = List.replicate ((List.range n).map fun i => (List.range n).contains i).length true :=
        List.eq_replicate_of_mem h
    _ = List.replicate n true := by rw [List.length_map, List.length_range]

theorem maskAnd_allTrue (m : Mask) : maskAnd m (List.replicate m.length true) = m := by
  induction m with
  | nil => rfl
  | cons b t ih => simp [maskAnd, List.replicate_succ] at ih ⊢; exact ih

/-! ### C4 -/

/-- C4: `DataTransformation.apply` is total and degrades to a no-op: when
the target column is absent the input frame is returned unchanged, and when
the bound operation raises internally the exception is caught and the frame
with its original column values is returned. -/
theorem C4_apply_noop_on_failure (df : DF) (t : DataTransformation) :
    (df.colNames.contains t.column = false → t.apply df = df) ∧
    (t.tfn (seriesOf df t.column) = .error () → t.apply df = df) := by
  constructor
  · intro h
    have h2 : ¬ t.column ∈ df.colNames := by simpa using h
    simp [DataTransformation.apply, h2]
  · intro h
    by_cases hc : t.column ∈ df.colNames
    · simp [DataTransformation.apply, hc, h]
    · simp [DataTransformation.apply, hc]

/-- Witness for C4: a `REMOVE_MISSING` step aimed at the absent column
`"zz"` leaves the concrete frame unchanged, and a step whose bound function
always raises leaves it unchanged as well. -/
theorem C4_apply_noop_on_failure_witness :
    (mkTransformation "zz" .REMOVE_MISSING).apply dft = dft ∧
    tBad.apply dft = dft :=
  ⟨(C4_apply_noop_on_failure dft (mkTransformation "zz" .REMOVE_MISSING)).1 (by decide),
   (C4_apply_noop_on_failure dft tBad).2 rfl⟩

/-! ### C5 -/

/-- C5: `apply_all` of the empty pipeline is the identity — in particular on
any already-transformed frame — and the fold is deterministic: applying the
same pipeline to the same frame twice yields the same result.  (That no call
mutates its input frame is inherent to the embedding: the source copies the
frame before every step, which is what justifies embedding `apply_all` as a
pure function.) -/
theorem C5_applyAll_identity (df : DF) (tr : DataFrameTransformer) :
    DataFrameTransformer.applyAll ⟨[]⟩ (tr.applyAll df) = tr.applyAll df ∧
    ∀ df2 : DF, df2 = df → tr.applyAll df2 = tr.applyAll df :=
  ⟨rfl, fun _ h => by rw [h]⟩

/-- Witness for C5 at a concrete frame and a one-step pipeline. -/
theorem C5_applyAll_identity_witness :
    DataFrameTransformer.applyAll ⟨[]⟩
        (DataFrameTransformer.applyAll ⟨[mkTransformation "numeric" .REMOVE_MISSING]⟩ dft) =
      DataFrameTransformer.applyAll ⟨[mkTransformation "numeric" .REMOVE_MISSING]⟩ dft ∧
    DataFrameTransformer.applyAll ⟨[mkTransformation "numeric" .REMOVE_MISSING]⟩ dft =
      DataFrameTransformer.applyAll ⟨[mkTransformation "numeric" .REMOVE_MISSING]⟩ dft :=
  ⟨(C5_applyAll_identity dft ⟨[mkTransformation "numeric" .REMOVE_MISSING]⟩).1,
   (C5_applyAll_identity dft ⟨[mkTransformation "numeric" .REMOVE_MISSING]⟩).2 dft rfl⟩

/-! ### C9 -/

/-- Counterexample to C9: a Dataset built (without an explicit columns list)
over a frame with one column and zero rows.  `data.empty` is true, so
`__post_init__` skips profiling and the columns list stays empty — it does
not contain one profile per table column. -/
theorem C9_counterexample : (mkDataset dfE [] []).columns.length ≠ dfE.cols.length := by
  decide

/-- C9 as amended: when no columns list is supplied, the profiles are
derived — one per table column, in table column order — provided the frame
is non-empty (at least one row and one column); for an empty frame the
columns list stays empty. -/
theorem C9_columns_consistent :
    (∀ (df : DF) (meta : List (String × String)), df.isEmpty = false →
      (mkDataset df meta []).columns =
        df.cols.map (fun p => Column.from_series p.1 p.2)) ∧
    (∀ (df : DF) (meta : List (String × String)), df.isEmpty = true →
      (mkDataset df meta []).columns = []) := by
  constructor
  · intro df meta h
    simp [mkDataset, initializeColumns, h]
  · intro df meta h
    simp [mkDataset, h]

/-- Witness for C9's amended statement at two concrete frames. -/
theorem C9_columns_consistent_witness :
    (mkDataset df3 [] []).columns = df3.cols.map (fun p => Column.from_series p.1 p.2) ∧
    (mkDataset dfE [] []).columns = [] :=
  ⟨C9_columns_consistent.1 df3 [] (by decide),
   C9_columns_consistent.2 dfE [] (by decide)⟩

/-! ### C1 -/

/-- C1: the filter combination is a strict left-to-right fold.  An empty
clause list returns the frame unchanged; for three clauses A, B, C that all
evaluate (each mask computed by `clauseKept` against the original frame),
with B carrying OR and C carrying AND, the selected rows are exactly
`(A ∪ B) ∩ C` applied to the original frame; and on the concrete example
frame that result differs from `A ∪ (B ∩ C)` — there is no operator
precedence. -/
theorem C1_filter_fold :
    (∀ df : DF, applyFilters df [] = df) ∧
    (∀ (df : DF) (cA cB cC : FilterClause) (kA kB kC : List ℕ),
      clauseKept df cA = some kA → clauseKept df cB = some kB →
      clauseKept df cC = some kC → cB.logic = "or" → cC.logic = "and" →
      applyFilters df [cA, cB, cC] =
        df.selectRows (maskAnd (maskOr (maskOf df.nrows kA) (maskOf df.nrows kB))
          (maskOf df.nrows kC))) ∧
    applyFilters exDF [exA, exB, exC] ≠
      exDF.selectRows (maskOr (maskOf 4 [0])
        (maskAnd (maskOf 4 [1]) (maskOf 4 [1, 2, 3]))) := by
  refine ⟨fun df => rfl, ?_, by decide⟩
  intro df cA cB cC kA kB kC hA hB hC hlB hlC
  simp only [applyFilters, List.filterMap_cons, List.filterMap_nil, hA, hB, hC,
    Option.map_some', hlB, hlC]
  rfl

/-- Witness for C1: the fold equality at the concrete frame — clauses
`v == 1`, `v == 2` (OR), `v > 1` (AND) select `({0} ∪ {1}) ∩ {1,2,3}`,
i.e. exactly row 1. -/
theorem C1_filter_fold_witness :
    applyFilters exDF [exA, exB, exC] =
      exDF.selectRows (maskAnd (maskOr (maskOf 4 [0]) (maskOf 4 [1]))
        (maskOf 4 [1, 2, 3])) :=
  C1_filter_fold.2.1 exDF exA exB exC [0] [1] [1, 2, 3]
    (by decide) (by decide) (by decide) rfl rfl

/-! ### C3 -/

/-- Counterexample to C3: clause `c3B` has an operand (`"abc"`) that cannot
be converted to its numeric type.  The claim says such a clause is skipped,
so the result should equal the fold over the remaining clause `c3A` alone —
but the failed conversion makes the clause's filter return the frame
unchanged, which contributes an all-true mask, and combined with `c3B`'s OR
logic the final result is the whole frame instead. -/
theorem C3_counterexample : applyFilters df3 [c3A, c3B] ≠ applyFilters df3 [c3A] := by
  decide

/-- C3 as amended: a clause with an empty or absent column reference is
skipped and contributes no mask, so the fold is computed over the remaining
clauses; but a clause whose operand fails conversion is *not* skipped — its
filter returns the frame unchanged, so it contributes an all-true mask.
Such a mask is neutral when the clause's logic is AND (the last two
conjuncts: the all-true mask is `maskOf n (allIdx _)` and AND with all-true
is the identity), but under OR it makes the accumulated mask all-true. -/
theorem C3_clause_skip_semantics :
    (∀ (df : DF) (c : FilterClause) (cs : List FilterClause),
      c.column = "" ∨ df.colNames.contains c.column = false →
      applyFilters df (c :: cs) = applyFilters df cs) ∧
    (∀ (df : DF) (c : FilterClause),
      ¬(c.column = "" ∨ df.colNames.contains c.column = false) →
      c.ftype = "numeric" → tryFloat c.value = .error () →
      clauseKept df c = some (allIdx df)) ∧
    (∀ n : ℕ, maskOf n (List.range n) = List.replicate n true) ∧
    (∀ m : Mask, maskAnd m (List.replicate m.length true) = m) := by
  refine ⟨?_, ?_, maskOf_range, maskAnd_allTrue⟩
  · intro df c cs h
    have hk : clauseKept df c = none := by
      unfold clauseKept
      rw [if_pos h]
    simp [applyFilters, List.filterMap_cons, hk]
  · intro df c h hf hv
    unfold clauseKept
    rw [if_neg h, hf]
    rw [if_neg (by decide : ¬("numeric" : String) = "text"),
      if_pos (rfl : ("numeric" : String) = "numeric")]
    unfold applyNumericFilter
    rw [hv]
    cases tryFloat c.value2 <;> rfl

/-- Witness for C3's amended statement: the empty-column clause `cSkip` is
skipped over the concrete frame, and the conversion-failure clause `c3B`
contributes the all-row (all-true) mask. -/
theorem C3_clause_skip_semantics_witness :
    applyFilters df3 [cSkip] = applyFilters df3 [] ∧
    clauseKept df3 c3B = some (allIdx df3) :=
  ⟨C3_clause_skip_semantics.1 df3 cSkip [] (Or.inl rfl),
   C3_clause_skip_semantics.2.1 df3 c3B (by decide) rfl rfl⟩

/-! ### C8 counterexample -/

/-- Counterexample to C8: `first_n` with operand 0 does not keep the first
0 rows (the empty frame); the positivity guard fails and the filter keeps
every row. -/
theorem C8_counterexample :
    applyNumericFilter df8 "v" "first_n" (.pnum 0) .pnone ≠
      (List.range df8.nrows).take 0 := by
  decide

/-! ### C10 -/

/-- C10: in the text filter, `contains` and `equals` are case-insensitive —
their match result depends only on the lowercased cell and operand — whereas
`starts_with` and `ends_with` compare case-sensitively: on the concrete
one-row frame holding `"Abc"`, `contains "abc"` keeps the row while
`starts_with "abc"` does not (and `equals "ABC"` keeps it while
`ends_with "BC"` does not). -/
theorem C10_text_case_sensitivity :
    (∀ v w s t : List Char, lowerStr v = lowerStr w → lowerStr s = lowerStr t →
      containsMatch v (.str s) = containsMatch w (.str t)) ∧
    (∀ v w s t : List Char, lowerStr v = lowerStr w → lowerStr s = lowerStr t →
      equalsMatchT v (.str s) = equalsMatchT w (.str t)) ∧
    applyTextFilter df10 "t" "contains" (.pstr ['a', 'b', 'c']) = [0] ∧
    applyTextFilter df10 "t" "equals" (.pstr ['A', 'B', 'C']) = [0] ∧
    applyTextFilter df10 "t" "starts_with" (.pstr ['a', 'b', 'c']) = [] ∧
    applyTextFilter df10 "t" "ends_with" (.pstr ['B', 'C']) = [] := by
  refine ⟨?_, ?_, by decide, by decide, by decide, by decide⟩
  · intro v w s t hv hs
    simp [containsMatch, cellToStr, hv, hs]
  · intro v w s t hv hs
    simp [equalsMatchT, cellToStr, hv, hs]

/-- Witness for C10: the case-insensitivity of `contains` instantiated at
operands and cells that differ only in letter case. -/
theorem C10_text_case_sensitivity_witness :
    containsMatch ['a', 'b', 'c'] (.str ['A', 'b', 'c']) =
      containsMatch ['A', 'B', 'C'] (.str ['a', 'B', 'C']) :=
  C10_text_case_sensitivity.1 ['a', 'b', 'c'] ['A', 'B', 'C']
    ['A', 'b', 'c'] ['a', 'B', 'C'] (by decide) (by decide)

/-! ### C7 -/

/-- Counterexample to C7's zero-divisor sub-claim: on a one-row frame, a
`divisible_by` clause with operand 0 keeps the row (the guard
`num_value != 0` fails and the filter returns the frame unchanged), whereas
the claim says a zero operand yields no match (no rows kept). -/
theorem C7_counterexample :
    applyNumericFilter df7 "v" "divisible_by" (.pnum 0) .pnone ≠ [] := by
  decide

/-- C7 as amended: for a nonzero numeric operand, the rows kept by
`divisible_by` are exactly those whose column value has remainder zero
modulo the operand (Python float `%`); a zero operand makes the filter a
no-op that returns the frame unchanged (every row kept), not an empty
match. -/
theorem C7_divisible_by :
    (∀ (df : DF) (col : String) (q : ℚ), q ≠ 0 → hasStrCol df col = false →
      ∀ i : ℕ,
        i ∈ applyNumericFilter df col "divisible_by" (.pnum q) .pnone ↔
          i < df.nrows ∧ ∃ x : ℚ, df.cell col i = .num x ∧ pmod x q = 0) ∧
    (∀ (df : DF) (col : String),
      applyNumericFilter df col "divisible_by" (.pnum 0) .pnone = allIdx df) := by
  constructor
  · intro df col q hq hs i
    have h1 : applyNumericFilter df col "divisible_by" (.pnum q) .pnone =
        (allIdx df).filter (fun i => cellDivisible (df.cell col i) q) := by
      simp [applyNumericFilter, tryFloat, hq, hs]
    rw [h1]
    simp only [List.mem_filter, allIdx, List.mem_range]
    constructor
    · rintro ⟨hlt, hc⟩
      refine ⟨hlt, ?_⟩
      revert hc
      cases hcell : df.cell col i with
      | num x =>
        intro hc
        exact ⟨x, rfl, by simpa [cellDivisible] using hc⟩
      | null => intro hc; simp [cellDivisible] at hc
      | str s => intro hc; simp [cellDivisible] at hc
    · rintro ⟨hlt, x, hx, hdvd⟩
      exact ⟨hlt, by simp [cellDivisible, hx, hdvd]⟩
  · intro df col
    simp [applyNumericFilter, tryFloat]

/-- Witness for C7's amended statement: on the three-row frame with values
3, 4, 6 and operand 3, row 2 (value 6) is kept because `6 % 3 = 0`. -/
theorem C7_divisible_by_witness :
    2 ∈ applyNumericFilter df7b "v" "divisible_by" (.pnum 3) .pnone ↔
      2 < df7b.nrows ∧ ∃ x : ℚ, df7b.cell "v" 2 = .num x ∧ pmod x 3 = 0 :=
  C7_divisible_by.1 df7b "v" 3 (by decide) (by decide) 2

/-! ### C8 helper lemmas -/

theorem truncQ_natCast (n : ℕ) : truncQ (n : ℚ) = (n : ℤ) := by
  simp [truncQ]

theorem noStr_of_allNum (l : List CellVal) (h : l.all isNumCell = true) :
    l.any isStrCell = false := by
  simp only [List.all_eq_true] at h
  simp only [List.any_eq_false]
  intro x hx
  have hn := h x hx
  cases x <;> simp_all [isNumCell, isStrCell]

theorem sortedDistinct_ne_nil (l : List CellVal) (hne : l ≠ [])
    (h : l.all isNumCell = true) : sortedDistinct l ≠ [] := by
  cases l with
  | nil => exact absurd rfl hne
  | cons c t =>
    simp only [List.all_eq_true] at h
    have hc : isNumCell c = true := h c (List.mem_cons_self c t)
    cases c with
    | num q =>
      intro hcontra
      have hq : q ∈ sortedDistinct (.num q :: t) := by
        unfold sortedDistinct
        rw [List.mem_insertionSort]
        exact List.mem_dedup.2 (by simp [List.filterMap_cons])
      rw [hcontra] at hq
      exact absurd hq (List.not_mem_nil q)
    | null => simp [isNumCell] at hc
    | str s => simp [isNumCell] at hc

/-- C8 as amended, for operands `n ≥ 1` (the counterexample above forces the
restriction: with operand 0 the numeric guards fail and the filters keep all
rows, and for year type `first_n` keeps no rows while `last_n` keeps all,
Python's `[-0:]` slice being the whole list): the numeric subsample
operators are positional — `every_nth` keeps exactly the rows at positions
0, n, 2n, … (the multiples of n), `first_n` the first n rows, `last_n` the
last n rows — while the year operators are value-based: over a fully
non-null numeric column, `first_n`/`last_n` keep exactly the rows whose
value lies among the n smallest/largest distinct values, regardless of row
order. -/
theorem C8_subsample_semantics :
    (∀ (df : DF) (col : String) (n : ℕ), 1 ≤ n →
      applyNumericFilter df col "every_nth" (.pnum (n : ℚ)) .pnone =
        (List.range df.nrows).filter (fun i => i % n == 0)) ∧
    (∀ (df : DF) (col : String) (n : ℕ), 1 ≤ n →
      applyNumericFilter df col "first_n" (.pnum (n : ℚ)) .pnone =
        (List.range df.nrows).take n) ∧
    (∀ (df : DF) (col : String) (n : ℕ), 1 ≤ n →
      applyNumericFilter df col "last_n" (.pnum (n : ℚ)) .pnone =
        (List.range df.nrows).drop (df.nrows - n)) ∧
    (∀ (df : DF) (col : String) (n : ℕ), 1 ≤ n →
      (df.getCol col).all isNumCell = true → (df.getCol col).length = df.nrows →
      applyYearFilter df col "first_n" (.pnum (n : ℚ)) .pnone =
        (allIdx df).filter (fun i =>
          cellInQ (df.cell col i) ((sortedDistinct (df.getCol col)).take n))) ∧
    (∀ (df : DF) (col : String) (n : ℕ), 1 ≤ n →
      (df.getCol col).all isNumCell = true → (df.getCol col).length = df.nrows →
      applyYearFilter df col "last_n" (.pnum (n : ℚ)) .pnone =
        (allIdx df).filter (fun i =>
          cellInQ (df.cell col i)
            ((sortedDistinct (df.getCol col)).drop
              ((sortedDistinct (df.getCol col)).length - n)))) := by
  have hq : ∀ n : ℕ, 1 ≤ n → (0 : ℚ) < (n : ℚ) := by
    intro n hn
    exact_mod_cast Nat.lt_of_lt_of_le Nat.zero_lt_one hn
  refine ⟨?_, ?_, ?_, ?_, ?_⟩
  · intro df col n hn
    have hnz : ¬ ((n : ℤ) = 0) := by omega
    simp [applyNumericFilter, tryFloat, truncQ_natCast, hq n hn, hnz]
  · intro df col n hn
    simp [applyNumericFilter, tryFloat, truncQ_natCast, hq n hn]
  · intro df col n hn
    simp [applyNumericFilter, tryFloat, truncQ_natCast, hq n hn]
  · intro df col n hn hall hlen
    have hs : hasStrCol df col = false := by
      unfold hasStrCol
      exact noStr_of_allNum _ hall
    by_cases h0 : df.getCol col = []
    · have hn0 : df.nrows = 0 := by rw [← hlen, h0]; rfl
      simp [applyYearFilter, tryInt, truncQ_natCast, hs, allIdx, hn0,
        sortedDistinct, h0]
    · have hys : sortedDistinct (df.getCol col) ≠ [] :=
        sortedDistinct_ne_nil _ h0 hall
      have htake : pyTake (sortedDistinct (df.getCol col)) ((n : ℕ) : ℤ) =
          (sortedDistinct (df.getCol col)).take n := by
        simp [pyTake]
      simp [applyYearFilter, tryInt, truncQ_natCast, hs, hys, htake]
  · intro df col n hn hall hlen
    have hs : hasStrCol df col = false := by
      unfold hasStrCol
      exact noStr_of_allNum _ hall
    by_cases h0 : df.getCol col = []
    · have hn0 : df.nrows = 0 := by rw [← hlen, h0]; rfl
      simp [applyYearFilter, tryInt, truncQ_natCast, hs, allIdx, hn0,
        sortedDistinct, h0]
    · have hys : sortedDistinct (df.getCol col) ≠ [] :=
        sortedDistinct_ne_nil _ h0 hall
      have hneg : ¬ ((0 : ℤ) ≤ -((n : ℕ) : ℤ)) := by omega
      have hdrop : pyDrop (sortedDistinct (df.getCol col)) (-((n : ℕ) : ℤ)) =
          (sortedDistinct (df.getCol col)).drop
            ((sortedDistinct (df.getCol col)).length - n) := by
        unfold pyDrop
        rw [if_neg hneg, ← sub_eq_add_neg, Int.toNat_sub]
      simp [applyYearFilter, tryInt, truncQ_natCast, hs, hys, hdrop]

/-- Witness for C8's amended statement: `every_nth` with n = 5 over the
25-row frame keeps positions 0, 5, 10, 15, 20, and year `last_n` with
n = 2 keeps the rows whose year is among the two largest distinct values. -/
theorem C8_subsample_semantics_witness :
    applyNumericFilter df25 "v" "every_nth" (.pnum ((5 : ℕ) : ℚ)) .pnone =
      (List.range df25.nrows).filter (fun i => i % 5 == 0) ∧
    applyYearFilter dfy "y" "last_n" (.pnum ((2 : ℕ) : ℚ)) .pnone =
      (allIdx dfy).filter (fun i =>
        cellInQ (dfy.cell "y" i)
          ((sortedDistinct (dfy.getCol "y")).drop
            ((sortedDistinct (dfy.getCol "y")).length - 2))) :=
  ⟨C8_subsample_semantics.1 df25 "v" 5 (by decide),
   C8_subsample_semantics.2.2.2.2 dfy "y" 2 (by decide) (by decide) (by decide)⟩

/-! ### C2 helper lemmas -/

theorem lookup_filter_keyed {β : Type} (g : ℕ → β) (pred : ℕ × β → Bool)
    (l : List ℕ) (i : ℕ) :
    (((l.map (fun j => (j, g j))).filter pred).lookup i) =
      if i ∈ l ∧ pred (i, g i) = true then some (g i) else none := by
  induction l with
  | nil => simp
  | cons a t ih =>
    simp only [List.map_cons, List.filter_cons]
    by_cases hp : pred (a, g a) = true
    · rw [if_pos hp]
      by_cases h : i = a
      · subst h
        simp [List.lookup_cons, hp]
      · have hbeq : (i == a) = false := by simp [h]
        simp [List.lookup_cons, hbeq, ih, h]
    · rw [if_neg hp]
      by_cases h : i = a
      · subst h
        simp [ih, hp]
      · simp [ih, h]

theorem getD_map_range {β : Type} (f : ℕ → β) (n i : ℕ) (d : β) :
    (((List.range n).map f).getD i d) = if i < n then f i else d := by
  by_cases h : i < n
  · rw [if_pos h, List.getD_eq_getElem?_getD, List.getElem?_map,
      List.getElem?_range h]
    rfl
  · rw [if_neg h]
    refine List.getD_eq_default _ _ ?_
    rw [List.length_map, List.length_range]
    omega

theorem getCol_setCol (df : DF) (c : String) (L : List CellVal)
    (h : c ∈ df.colNames) : (df.setCol c L).getCol c = L := by
  obtain ⟨n, cols⟩ := df
  simp only [DF.colNames] at h
  simp only [DF.setCol, DF.getCol]
  induction cols with
  | nil => simp at h
  | cons p t ih =>
    obtain ⟨k, v⟩ := p
    by_cases hc : k = c
    · subst hc
      simp [List.lookup_cons]
    · have hne : ¬ c = k := fun e => hc e.symm
      have hmem : c ∈ t.map Prod.fst := by
        simp only [List.map_cons, List.mem_cons] at h
        rcases h with h1 | h1
        · exact absurd h1 hne
        · exact h1
      have hbeq : (c == k) = false := by simp [hne]
      simp only [List.map_cons, if_neg hc, List.lookup_cons, hbeq]
      simpa using ih hmem

/-! ### C2 -/

/-- C2: applying a `REMOVE_MISSING` transformation targeting a column that
is present never drops a row — the row count is unchanged — and the null
entries of the column are still null afterwards: `dropna` shrinks the
Series, but assigning it back aligns on the frame's index and refills the
dropped labels with NaN, so the operation effectively leaves nulls in
place. -/
theorem C2_remove_missing (df : DF) (c : String) (h : c ∈ df.colNames) :
    ((mkTransformation c .REMOVE_MISSING).apply df).nrows = df.nrows ∧
    ∀ i : ℕ, df.cell c i = .null →
      ((mkTransformation c .REMOVE_MISSING).apply df).cell c i = .null := by
  have happ : (mkTransformation c .REMOVE_MISSING).apply df =
      df.setCol c (alignToIndex df.nrows
        ((seriesOf df c).filter (fun p => !(isNullCell p.2)))) := by
    simp [DataTransformation.apply, mkTransformation, getTransformationFunction,
      removeMissingFn, h]
  constructor
  · rw [happ]
    rfl
  · intro i hnull
    rw [happ]
    unfold DF.cell
    rw [getCol_setCol _ _ _ h]
    unfold alignToIndex seriesOf
    rw [getD_map_range]
    by_cases hi : i < df.nrows
    · rw [if_pos hi, lookup_filter_keyed (fun j => df.cell c j)]
      have : ¬ (i ∈ List.range df.nrows ∧
          (!(isNullCell (df.cell c i))) = true) := by
        intro hcontra
        rw [hnull] at hcontra
        simp [isNullCell] at hcontra
      rw [if_neg this]
      rfl
    · rw [if_neg hi]

/-- Witness for C2 on the concrete frame: the `numeric` column has a null
at row 1; after `REMOVE_MISSING` the frame still has 3 rows and the entry
is still null. -/
theorem C2_remove_missing_witness :
    ((mkTransformation "numeric" .REMOVE_MISSING).apply dft).nrows = dft.nrows ∧
    ((mkTransformation "numeric" .REMOVE_MISSING).apply dft).cell "numeric" 1 =
      .null :=
  ⟨(C2_remove_missing dft "numeric" (by decide)).1,
   (C2_remove_missing dft "numeric" (by decide)).2 1 (by decide)⟩

/-! ### C6 helper lemmas -/

theorem nonNullNums_length_eq_countStat (s : List CellVal)
    (h : isNumericCol s = true) : (nonNullNums s).length = countStat s := by
  induction s with
  | nil => rfl
  | cons c t ih =>
    simp only [isNumericCol, List.all_cons, Bool.and_eq_true] at h
    have ht : isNumericCol t = true := by
      simp [isNumericCol, h.2]
    cases c with
    | null =>
      simpa [nonNullNums, countStat, isNullCell] using ih ht
    | num q =>
      simpa [nonNullNums, countStat, isNullCell] using ih ht
    | str v => simp [isStrCell] at h

/-! ### C6 -/

/-- C6: profiling an all-null numeric column of any length `n` yields
`count = 0`, `null_count = n`, `unique_count = 0`, and all five numeric
statistics present with value `None` (not omitted); and for any numeric
column, a statistic that computes to NaN — here the sample standard
deviation of a single non-null value — is normalized to `None`. -/
theorem C6_profile_nulls :
    (∀ n : ℕ,
      (Column.from_series "x" (List.replicate n .null)).stats =
        [("count", some 0), ("null_count", some ((n : ℕ) : ℚ)),
         ("unique_count", some 0), ("min", none), ("max", none),
         ("mean", none), ("median", none), ("std", none)]) ∧
    (∀ s : List CellVal, isNumericCol s = true → countStat s = 1 →
      (Column.from_series "y" s).stats.lookup "std" = some none) := by
  constructor
  · intro n
    have hany : (List.replicate n CellVal.null).any
        (fun c => !(isNullCell c)) = false := by
      simp [isNullCell]
    simp [Column.from_series, isNumericCol, isStrCell, hany, countStat,
      nullCountStat, uniqueCountStat, isNullCell]
  · intro s hnum hcount
    have hfil : s.filter (fun c => !(isNullCell c)) ≠ [] := by
      intro e
      unfold countStat at hcount
      rw [e] at hcount
      exact absurd hcount (by simp)
    obtain ⟨x, hx⟩ := List.exists_mem_of_ne_nil _ hfil
    have hxs := List.mem_filter.1 hx
    have hany : s.any (fun c => !(isNullCell c)) = true :=
      List.any_eq_true.2 ⟨x, hxs.1, hxs.2⟩
    have hne : s ≠ [] := by
      intro e
      rw [e] at hx
      exact absurd hx (List.not_mem_nil x)
    have hstd : stdStat s = none := by
      unfold stdStat
      rw [if_pos]
      rw [nonNullNums_length_eq_countStat s hnum, hcount]
    simp only [Column.from_series, hnum, if_true, reduceIte, hstd]
    rw [if_pos ⟨hne, hany⟩]
    rfl

/-- Witness for C6 at length 5 and at the single-value column `[1]`, whose
sample standard deviation is NaN and profiles as `None`. -/
theorem C6_profile_nulls_witness :
    (Column.from_series "x" (List.replicate 5 .null)).stats =
      [("count", some 0), ("null_count", some ((5 : ℕ) : ℚ)),
       ("unique_count", some 0), ("min", none), ("max", none),
       ("mean", none), ("median", none), ("std", none)] ∧
    (Column.from_series "y" [.num 1]).stats.lookup "std" = some none :=
  ⟨C6_profile_nulls.1 5, C6_profile_nulls.2 [.num 1] (by decide) (by decide)⟩

end DataInspect
